import Mathlib

/-!
Verification development for `airflow/providers/slack/hooks/slack.py`
(`SlackHook`): token resolution (`SlackHook.__get_token`), hook
construction (`SlackHook.__init__`) and the call forwarder
(`SlackHook.call`).

The Python code is shallowly embedded: exceptions become an `Exc`
error type threaded through `Except`; the external connection registry
(`BaseHook.get_connection`) and the external vendor client
(`slack.WebClient.api_call` / response `validate`) are parameters of the
embedded functions; registry lookups and client constructions are recorded
in explicit trace lists so that claims about "never invoked" /
"invoked exactly once" are statable.
-/

namespace SlackHookSpec

/-- Opaque Python values passed as keyword arguments (client options and
API-call parameters). -/
inductive PyVal where
  | str (s : String)
  | int (n : Int)
  | bool (b : Bool)
  | none
deriving DecidableEq

/-- Exceptions that can flow through the embedded code: the framework's
`AirflowException`, the vendor's `SlackClientError` (identified by its
detail string, i.e. `str(exc)`), and any other exception, kept opaque. -/
inductive Exc where
  | airflowException (msg : String)
  | slackClientError (detail : String)
  | other (name : String)
deriving DecidableEq

/-- An Airflow connection record as seen by `__get_token`: only the
`password` attribute is consulted, via `getattr(conn, 'password', None)`,
so a missing attribute and a `None` value are both `Option.none`. -/
structure Connection where
  password : Option String
deriving DecidableEq

/-- The external connection registry: `get_connection` either returns a
record or raises an opaque exception (not-found, registry unavailable),
which the embedded code propagates unmodified. -/
def Registry : Type := String → Except Exc Connection

/-- The vendor client handle: `WebClient(token, **client_args)` stores the
resolved token and the passthrough keyword arguments verbatim (the embedding
does not model the client's internal behavior on them). -/
structure WebClient where
  token : String
  client_args : List (String × PyVal)
deriving DecidableEq

/-- The hook object after `__init__`: its only component-owned field is the
constructed client handle (the resolved token is not stored separately). -/
structure SlackHook where
  client : WebClient
deriving DecidableEq

/-- Message of the `AirflowException` raised when the resolved connection
record has a falsy password. -/
def missingTokenMsg : String := "Missing token(password) in Slack connection"

/-- Message of the `AirflowException` raised when neither a token nor a
connection id is supplied. -/
def cannotGetTokenMsg : String :=
  "Cannot get token: No valid Slack token nor slack_conn_id supplied."

/-- Embedding of `SlackHook.__get_token(token, slack_conn_id)`. Returns the
outcome together with the list of connection ids looked up in the registry
(in the source, calls to `self.get_connection`). The Python guard on the
record is `if not getattr(conn, 'password', None)`, so both a missing/None
password and an empty-string password raise. -/
def getToken (get_connection : Registry) (token slack_conn_id : Option String) :
    Except Exc String × List String :=
  match token with
  | some t => (Except.ok t, [])
  | none =>
    match slack_conn_id with
    | some cid =>
      (match get_connection cid with
       | Except.error e => (Except.error e, [cid])
       | Except.ok conn =>
         match conn.password with
         | none => (Except.error (Exc.airflowException missingTokenMsg), [cid])
         | some p =>
           if p = "" then (Except.error (Exc.airflowException missingTokenMsg), [cid])
           else (Except.ok p, [cid]))
    | none => (Except.error (Exc.airflowException cannotGetTokenMsg), [])

/-- Outcome of `SlackHook.__init__`: the constructed hook or the raised
exception, plus the registry lookups performed and the list of `WebClient`
instances constructed during initialization. -/
structure InitResult where
  result : Except Exc SlackHook
  lookups : List String
  constructed : List WebClient

/-- Embedding of `SlackHook.__init__(token, slack_conn_id, **client_args)`:
resolve the token via `__get_token`, then build `WebClient(token,
**client_args)` and store it as `self.client`. If token resolution raises,
the exception propagates and no client is constructed. -/
def slackHookInit (get_connection : Registry) (token slack_conn_id : Option String)
    (client_args : List (String × PyVal)) : InitResult :=
  match getToken get_connection token slack_conn_id with
  | (Except.ok t, lks) =>
    { result := Except.ok { client := { token := t, client_args := client_args } },
      lookups := lks,
      constructed := [{ token := t, client_args := client_args }] }
  | (Except.error e, lks) =>
    { result := Except.error e, lookups := lks, constructed := [] }

/-- Behavior of one invocation of the vendor client's
`api_call(method, **api_params)` followed by `.validate()` on its result:
either `api_call` itself raises, or it returns a response whose `validate`
either succeeds or raises some exception. -/
inductive ApiCallResult where
  | response (validate : Except Exc Unit)
  | raised (e : Exc)

/-- Behavior function standing for the external vendor client: what
`api_call` does for a given client configuration, method name and
parameter mapping. -/
def ApiBehavior : Type := WebClient → String → List (String × PyVal) → ApiCallResult

/-- Message built by `SlackHook.call` when translating a
`SlackClientError` raised by `validate`: the f-string
`f"Slack API call failed ({exc})"`. -/
def slackApiFailedMsg (detail : String) : String :=
  "Slack API call failed (" ++ detail ++ ")"

/-- Outcome of `SlackHook.call`: the returned value or raised exception,
the hook object after the call (Python's `self`, which `call` never
mutates), and the list of `api_call` invocations performed, each recorded
as (method, parameter mapping). -/
structure CallResult where
  result : Except Exc Unit
  selfAfter : SlackHook
  apiCalls : List (String × List (String × PyVal))

/-- Embedding of `SlackHook.call(method, api_params)`:
`return_code = self.client.api_call(method, **api_params)` (outside any
`try`, so an exception here propagates unmodified), then
`return_code.validate()` inside a `try` whose sole `except` clause catches
`SlackClientError` and re-raises `AirflowException(f"Slack API call failed
({exc})")`; any other exception from `validate` propagates unmodified. On
success the method falls off the end, returning `None` (`Except.ok ()`). -/
def SlackHook.call (api_behavior : ApiBehavior) (self : SlackHook) (method : String)
    (api_params : List (String × PyVal)) : CallResult :=
  match api_behavior self.client method api_params with
  | ApiCallResult.raised e =>
    { result := Except.error e, selfAfter := self, apiCalls := [(method, api_params)] }
  | ApiCallResult.response v =>
    match v with
    | Except.ok _ =>
      { result := Except.ok (), selfAfter := self, apiCalls := [(method, api_params)] }
    | Except.error e =>
      match e with
      | Exc.slackClientError detail =>
        { result := Except.error (Exc.airflowException (slackApiFailedMsg detail)),
          selfAfter := self, apiCalls := [(method, api_params)] }
      | e =>
        { result := Except.error e, selfAfter := self, apiCalls := [(method, api_params)] }

/-- Boolean prefix test on character lists, used for the substring check. -/
def charListHasPfx : List Char → List Char → Bool
  | [], _ => true
  | _ :: _, [] => false
  | c :: cs, d :: ds => c == d && charListHasPfx cs ds

/-- Boolean substring occurrence test on character lists. -/
def charListMentions (sub : List Char) : List Char → Bool
  | [] => charListHasPfx sub []
  | c :: cs => charListHasPfx sub (c :: cs) || charListMentions sub cs

/-- Whether the string `sub` occurs as a contiguous substring of `s`. -/
def strMentions (s sub : String) : Bool := charListMentions sub.data s.data

/-- Concrete registry in which every lookup raises (connection not found),
used as the witness registry for claims where the registry must not matter. -/
def regUnresolvable : Registry := fun _ => Except.error (Exc.other "AirflowNotFoundException")

/-- Concrete registry mapping every connection id to a record whose
password is the secret "xoxb-secret". -/
def regWithSecret : Registry :=
  fun _ => Except.ok { password := some "xoxb-secret" }

/-- Concrete registry mapping every connection id to a record with an
empty-string password. -/
def regEmptyPassword : Registry := fun _ => Except.ok { password := some "" }

/-- Concrete behavior in which `validate` always raises
`SlackClientError("invalid_auth")`. -/
def behInvalidAuth : ApiBehavior :=
  fun _ _ _ => ApiCallResult.response (Except.error (Exc.slackClientError "invalid_auth"))

/-- Concrete behavior in which `api_call` itself raises an opaque
`ConnectionError` (not a `SlackClientError`). -/
def behConnError : ApiBehavior := fun _ _ _ => ApiCallResult.raised (Exc.other "ConnectionError")

/-- Concrete behavior in which `api_call` returns a response whose
`validate` succeeds. -/
def behOk : ApiBehavior := fun _ _ _ => ApiCallResult.response (Except.ok ())

/-- Concrete hook used in witnesses. -/
def hook0 : SlackHook := { client := { token := "xoxb-w", client_args := [] } }

/-- Concrete passthrough client options used in witnesses: a timeout of 5
seconds and a custom base URL. -/
def sampleClientArgs : List (String × PyVal) :=
  [("timeout", PyVal.int 5), ("base_url", PyVal.str "https://example.test/api/")]


/-- C1: for every non-empty direct token `t` and every connection id
(valid or not), `__get_token` resolves to exactly `t`; the lookup trace is
empty (the registry is never consulted) and the result is the same for
every registry, so it is independent of the registry's contents. -/
theorem getToken_direct_token_ignores_registry (get_connection : Registry) (t : String)
    (ht : t ≠ "") (slack_conn_id : Option String) :
    getToken get_connection (some t) slack_conn_id = (Except.ok t, []) := rfl

theorem getToken_direct_token_ignores_registry_witness :
    ("xoxb-a1" : String) ≠ "" ∧
    getToken regUnresolvable (some "xoxb-a1") (some "missing_conn") = (Except.ok "xoxb-a1", []) :=
  ⟨by decide,
   getToken_direct_token_ignores_registry regUnresolvable "xoxb-a1" (by decide)
     (some "missing_conn")⟩

/-- C2: for every connection id whose registry lookup yields a record with
a non-empty password `s`, resolution with `token = none` returns `s`. -/
theorem getToken_connection_password (get_connection : Registry) (cid : String)
    (conn : Connection) (s : String)
    (hc : get_connection cid = Except.ok conn) (hp : conn.password = some s) (hs : s ≠ "") :
    getToken get_connection none (some cid) = (Except.ok s, [cid]) := by
  simp [getToken, hc, hp, hs]

theorem getToken_connection_password_witness :
    regWithSecret "slack_default" = Except.ok { password := some "xoxb-secret" } ∧
    ("xoxb-secret" : String) ≠ "" ∧
    getToken regWithSecret none (some "slack_default") = (Except.ok "xoxb-secret", ["slack_default"]) :=
  ⟨rfl, by decide,
   getToken_connection_password regWithSecret "slack_default" { password := some "xoxb-secret" }
     "xoxb-secret" rfl rfl (by decide)⟩

/-- C3: for every connection id whose looked-up record has a missing/None
or empty password, resolution with `token = none` raises
`AirflowException` with a message that mentions both "password" and
"token". -/
theorem getToken_connection_missing_password (get_connection : Registry) (cid : String)
    (conn : Connection) (hc : get_connection cid = Except.ok conn)
    (hp : conn.password = none ∨ conn.password = some "") :
    getToken get_connection none (some cid)
      = (Except.error (Exc.airflowException missingTokenMsg), [cid]) ∧
    strMentions missingTokenMsg "password" = true ∧
    strMentions missingTokenMsg "token" = true := by
  rcases hp with hp | hp <;> exact ⟨by simp [getToken, hc, hp], by decide, by decide⟩

theorem getToken_connection_missing_password_witness :
    regEmptyPassword "slack_default" = Except.ok { password := some "" } ∧
    getToken regEmptyPassword none (some "slack_default")
      = (Except.error (Exc.airflowException missingTokenMsg), ["slack_default"]) :=
  ⟨rfl,
   (getToken_connection_missing_password regEmptyPassword "slack_default"
     { password := some "" } rfl (Or.inr rfl)).1⟩

/-- C4: when both the token and the connection id are `none`, construction
raises `AirflowException` with a message mentioning both "token" and
"slack_conn_id", performs no registry lookup, and constructs no client. -/
theorem init_no_token_no_conn_id (get_connection : Registry)
    (client_args : List (String × PyVal)) :
    slackHookInit get_connection none none client_args
      = { result := Except.error (Exc.airflowException cannotGetTokenMsg),
          lookups := [], constructed := [] } ∧
    strMentions cannotGetTokenMsg "token" = true ∧
    strMentions cannotGetTokenMsg "slack_conn_id" = true :=
  ⟨rfl, by decide, by decide⟩

/-- C5: whenever the underlying call's `validate` raises
`SlackClientError` with detail `d`, `call` raises `AirflowException` whose
message is exactly "Slack API call failed (" ++ d ++ ")"; the witness
instantiates `d` to "invalid_auth", giving the literal message
"Slack API call failed (invalid_auth)". -/
theorem call_translates_slack_client_error (api_behavior : ApiBehavior) (self : SlackHook)
    (method : String) (api_params : List (String × PyVal)) (detail : String)
    (hb : api_behavior self.client method api_params
        = ApiCallResult.response (Except.error (Exc.slackClientError detail))) :
    (SlackHook.call api_behavior self method api_params).result
      = Except.error (Exc.airflowException ("Slack API call failed (" ++ detail ++ ")")) := by
  simp [SlackHook.call, hb, slackApiFailedMsg]

theorem call_translates_slack_client_error_witness :
    behInvalidAuth hook0.client "chat.postMessage" []
      = ApiCallResult.response (Except.error (Exc.slackClientError "invalid_auth")) ∧
    (SlackHook.call behInvalidAuth hook0 "chat.postMessage" []).result
      = Except.error (Exc.airflowException "Slack API call failed (invalid_auth)") :=
  ⟨rfl,
   call_translates_slack_client_error behInvalidAuth hook0 "chat.postMessage" [] "invalid_auth" rfl⟩

/-- C6: whenever the underlying call validates successfully, `call`
returns `None` (the response object is discarded) and performs exactly one
`api_call` invocation, with the method name and the parameter mapping
forwarded unchanged. -/
theorem call_success_returns_none (api_behavior : ApiBehavior) (self : SlackHook)
    (method : String) (api_params : List (String × PyVal))
    (hb : api_behavior self.client method api_params = ApiCallResult.response (Except.ok ())) :
    SlackHook.call api_behavior self method api_params
      = { result := Except.ok (), selfAfter := self, apiCalls := [(method, api_params)] } := by
  simp [SlackHook.call, hb]

theorem call_success_returns_none_witness :
    behOk hook0.client "chat.postMessage" [("text", PyVal.str "hi")]
      = ApiCallResult.response (Except.ok ()) ∧
    SlackHook.call behOk hook0 "chat.postMessage" [("text", PyVal.str "hi")]
      = { result := Except.ok (), selfAfter := hook0,
          apiCalls := [("chat.postMessage", [("text", PyVal.str "hi")])] } :=
  ⟨rfl, call_success_returns_none behOk hook0 "chat.postMessage" [("text", PyVal.str "hi")] rfl⟩

/-- C7: whenever token resolution succeeds with token `t`, construction
passes every supplied client option through to the `WebClient` constructor
unmodified, alongside `t`: the constructed client's configuration equals
the supplied options. The witness uses the options
timeout = 5 and base_url = "https://example.test/api/". -/
theorem init_passthrough_client_args (get_connection : Registry)
    (token slack_conn_id : Option String) (client_args : List (String × PyVal)) (t : String)
    (h : (getToken get_connection token slack_conn_id).1 = Except.ok t) :
    (slackHookInit get_connection token slack_conn_id client_args).result
      = Except.ok { client := { token := t, client_args := client_args } } := by
  rcases hp : getToken get_connection token slack_conn_id with ⟨r, lks⟩
  rw [hp] at h
  simp only at h
  subst h
  simp [slackHookInit, hp]

theorem init_passthrough_client_args_witness :
    (getToken regUnresolvable (some "xoxb-w") none).1 = Except.ok "xoxb-w" ∧
    (slackHookInit regUnresolvable (some "xoxb-w") none sampleClientArgs).result
      = Except.ok { client := { token := "xoxb-w", client_args := sampleClientArgs } } :=
  ⟨rfl,
   init_passthrough_client_args regUnresolvable (some "xoxb-w") none sampleClientArgs "xoxb-w" rfl⟩

/-- C8: any exception that is not a `SlackClientError` — whether raised by
`api_call` itself or by `validate` — is not caught or translated by
`call`; it propagates to the caller in its original form. -/
theorem call_propagates_non_slack_error (api_behavior : ApiBehavior) (self : SlackHook)
    (method : String) (api_params : List (String × PyVal)) (e : Exc)
    (hnot : ∀ d, e ≠ Exc.slackClientError d)
    (hb : api_behavior self.client method api_params = ApiCallResult.raised e ∨
          api_behavior self.client method api_params = ApiCallResult.response (Except.error e)) :
    (SlackHook.call api_behavior self method api_params).result = Except.error e := by
  rcases hb with hb | hb
  · simp [SlackHook.call, hb]
  · cases e with
    | airflowException m => simp [SlackHook.call, hb]
    | slackClientError d => exact absurd rfl (hnot d)
    | other n => simp [SlackHook.call, hb]

theorem call_propagates_non_slack_error_witness :
    Exc.other "ConnectionError" ≠ Exc.slackClientError "invalid_auth" ∧
    behConnError hook0.client "chat.postMessage" []
      = ApiCallResult.raised (Exc.other "ConnectionError") ∧
    (SlackHook.call behConnError hook0 "chat.postMessage" []).result
      = Except.error (Exc.other "ConnectionError") :=
  ⟨fun h => Exc.noConfusion h, rfl,
   call_propagates_non_slack_error behConnError hook0 "chat.postMessage" []
     (Exc.other "ConnectionError") (fun _ h => Exc.noConfusion h) (Or.inl rfl)⟩

/-- C9: every successful construction builds exactly one client instance,
whose token is the one resolved at construction time; the hook is fully
determined by its client handle (the token is not stored as a separate
field), and every `call` invocation leaves the hook's state unchanged. -/
theorem init_builds_one_client_and_call_preserves_state (get_connection : Registry)
    (token slack_conn_id : Option String) (client_args : List (String × PyVal)) (h : SlackHook)
    (hinit : (slackHookInit get_connection token slack_conn_id client_args).result
      = Except.ok h) :
    (slackHookInit get_connection token slack_conn_id client_args).constructed = [h.client] ∧
    (getToken get_connection token slack_conn_id).1 = Except.ok h.client.token ∧
    h = { client := h.client } ∧
    (∀ (api_behavior : ApiBehavior) (method : String) (api_params : List (String × PyVal)),
      (SlackHook.call api_behavior h method api_params).selfAfter = h) := by
  rcases hp : getToken get_connection token slack_conn_id with ⟨r, lks⟩
  cases r with
  | error e => simp [slackHookInit, hp] at hinit
  | ok t =>
    simp [slackHookInit, hp] at hinit
    refine ⟨by simp [slackHookInit, hp, ← hinit], by simp [hp, ← hinit], rfl, ?_⟩
    intro api_behavior method api_params
    cases hx : api_behavior h.client method api_params with
    | raised ex => simp [SlackHook.call, hx]
    | response v =>
      cases v with
      | ok u => simp [SlackHook.call, hx]
      | error ex => cases ex <;> simp [SlackHook.call, hx]

theorem init_builds_one_client_and_call_preserves_state_witness :
    (slackHookInit regUnresolvable (some "xoxb-w") none []).result = Except.ok hook0 ∧
    (slackHookInit regUnresolvable (some "xoxb-w") none []).constructed = [hook0.client] ∧
    (SlackHook.call behOk hook0 "chat.postMessage" []).selfAfter = hook0 :=
  ⟨rfl,
   (init_builds_one_client_and_call_preserves_state regUnresolvable (some "xoxb-w") none []
     hook0 rfl).1,
   (init_builds_one_client_and_call_preserves_state regUnresolvable (some "xoxb-w") none []
     hook0 rfl).2.2.2 behOk "chat.postMessage" []⟩

/-- C10: when the direct token is the empty string (non-null but empty)
and a connection id is supplied, `__get_token` returns "" immediately: the
guard is `token is not None`, a null-ness check, so the registry is not
consulted and no configuration error is raised. -/
theorem getToken_empty_string_token (get_connection : Registry) (cid : String) :
    getToken get_connection (some "") (some cid) = (Except.ok "", []) := rfl

end SlackHookSpec
